import Mathlib

/-!
Shallow embedding of `src/chip8.rs` (a CHIP-8 virtual machine) and of its
64×32 framebuffer.  Rust `u8`/`u16`/`u64` values are modelled as `Nat`;
array indexing and debug-profile arithmetic overflow checks are modelled by
`Option` (`none` = panic).  Byte-array fields are modelled as total
functions `Nat → Nat` updated pointwise, exactly at the indices the Rust
code writes.
-/

namespace Chip8

/-- Pointwise update of a function-modelled array: `upd f i v` is the array
`f` with slot `i` overwritten by `v`. -/
def upd (f : Nat → Nat) (i v : Nat) : Nat → Nat :=
  fun j => if j = i then v else f j

/-- Pointwise update of a `Bool` array. -/
def updB (f : Nat → Bool) (i : Nat) (v : Bool) : Nat → Bool :=
  fun j => if j = i then v else f j

/-- `struct Framebuffer { buffer: [u64; 32] }` — 32 rows, one `u64` bitmask
per row (bit `x` of row `y` is the pixel at `(x, y)`). -/
structure Framebuffer where
  buffer : Nat → Nat

namespace Framebuffer

/-- `Framebuffer::new`: all rows zero. -/
def new : Framebuffer := ⟨fun _ => 0⟩

/-- `Framebuffer::clear`: sets every row back to zero. -/
def clear (_fb : Framebuffer) : Framebuffer := ⟨fun _ => 0⟩

/-- `Framebuffer::get`: `((self.buffer[y] >> x) & 0x0001) != 0`.
`buffer[y]` panics for `y ≥ 32`; the `u64` shift panics for `x ≥ 64`. -/
def get (fb : Framebuffer) (x y : Nat) : Option Bool :=
  if y < 32 ∧ x < 64 then some (((fb.buffer y >>> x) &&& 1) != 0)
  else none

/-- `Framebuffer::set`: records `collision = get(x, y)` (the pre-existing
pixel state, independent of `state`), then ORs `state << x` into row `y`:
`self.buffer[y] = self.buffer[y] | (state << x)`. -/
def set (fb : Framebuffer) (x y : Nat) (state : Bool) :
    Option (Bool × Framebuffer) :=
  match fb.get x y with
  | none => none
  | some collision =>
      some (collision,
        ⟨upd fb.buffer y (fb.buffer y ||| ((if state then 1 else 0) <<< x))⟩)

end Framebuffer

/-- `struct VM` — the whole machine state.  `rng` is an oracle for the next
value drawn by `self.rng.gen_range(0, 255)` (RND is the only consumer). -/
structure VM where
  memory : Nat → Nat
  stack : Nat → Nat
  stack_pointer : Nat
  program_counter : Nat
  registers : Nat → Nat
  index_register : Nat
  framebuffer : Framebuffer
  delay_timer : Nat
  sound_timer : Nat
  keyboard : Nat → Bool
  rng : Nat

namespace VM

/-- `VM::new`: everything zeroed, `program_counter = 0x200`. -/
def new : VM where
  memory := fun _ => 0
  stack := fun _ => 0
  stack_pointer := 0
  program_counter := 0x200
  registers := fun _ => 0
  index_register := 0
  framebuffer := Framebuffer.new
  delay_timer := 0
  sound_timer := 0
  keyboard := fun _ => false
  rng := 0

/-- `VM::load`: `for (i, value) in self.memory[512..4095].iter_mut().enumerate()
{ *value = rom[i]; }` — the slice `512..4095` has the 3583 cells at addresses
`512..=4094`, so iteration writes `rom[i]` to address `512 + i` for
`i = 0, …, 3582`. -/
def load (vm : VM) (rom : Nat → Nat) : VM :=
  { vm with memory := (List.range 3583).foldl (fun m i => upd m (512 + i) (rom i)) vm.memory }

/-- `VM::key`: `if key >= 0xF { panic!("Illegal key: {}", key); }` then
`self.keyboard[key] = state`. -/
def key (vm : VM) (k : Nat) (state : Bool) : Option VM :=
  if 0xF ≤ k then none
  else some { vm with keyboard := updB vm.keyboard k state }

/-- `VM::op`: the opcode dispatch, an ordered match on the four nibbles of
`opcode`.  Arms appear in source order; each wildcard-bearing Rust pattern
becomes the corresponding guard on the nibbles that are literals.  Debug
overflow checks and array bounds checks yield `none` (panic). -/
def op (vm : VM) (opcode : Nat) : Option VM :=
  let p1 := (opcode &&& 0xF000) >>> 12
  let p2 := (opcode &&& 0x0F00) >>> 8
  let p3 := (opcode &&& 0x00F0) >>> 4
  let p4 := opcode &&& 0x000F
  let nnn := opcode &&& 0x0FFF
  let vx := p2
  let vy := p3
  let byte := opcode &&& 0x00FF
  -- CLS
  if p1 = 0 ∧ p2 = 0 ∧ p3 = 0xE ∧ p4 = 0 then
    some { vm with framebuffer := vm.framebuffer.clear }
  -- RET: `stack_pointer -= 1; program_counter = stack[stack_pointer]`
  else if p1 = 0 ∧ p2 = 0 ∧ p3 = 0xE ∧ p4 = 0xE then
    if 1 ≤ vm.stack_pointer ∧ vm.stack_pointer - 1 < 16 then
      some { vm with stack_pointer := vm.stack_pointer - 1,
                     program_counter := vm.stack (vm.stack_pointer - 1) }
    else none
  -- AND Vx, Vy — the source pattern really is `(0, _, _, 2)`
  else if p1 = 0 ∧ p4 = 2 then
    some { vm with registers := upd vm.registers vx (vm.registers vx &&& vm.registers vy) }
  -- SYS addr
  else if p1 = 0 then some vm
  -- JP addr
  else if p1 = 1 then some { vm with program_counter := nnn }
  -- CALL addr: `stack_pointer += 1; stack[stack_pointer] = program_counter; pc = nnn`
  else if p1 = 2 then
    if vm.stack_pointer + 1 < 16 then
      some { vm with stack_pointer := vm.stack_pointer + 1,
                     stack := upd vm.stack (vm.stack_pointer + 1) vm.program_counter,
                     program_counter := nnn }
    else none
  -- SE Vx, byte
  else if p1 = 3 then
    if vm.registers vx = byte then
      if vm.program_counter + 2 < 65536 then
        some { vm with program_counter := vm.program_counter + 2 }
      else none
    else some vm
  -- SNE Vx, byte
  else if p1 = 4 then
    if vm.registers vx ≠ byte then
      if vm.program_counter + 2 < 65536 then
        some { vm with program_counter := vm.program_counter + 2 }
      else none
    else some vm
  -- SE Vx, Vy
  else if p1 = 5 then
    if vm.registers vx = vm.registers vy then
      if vm.program_counter + 2 < 65536 then
        some { vm with program_counter := vm.program_counter + 2 }
      else none
    else some vm
  -- LD Vx, byte
  else if p1 = 6 then some { vm with registers := upd vm.registers vx byte }
  -- ADD Vx, byte: `registers[vx] += byte` (u8, debug overflow check)
  else if p1 = 7 then
    if vm.registers vx + byte < 256 then
      some { vm with registers := upd vm.registers vx (vm.registers vx + byte) }
    else none
  -- LD Vx, Vy
  else if p1 = 8 ∧ p4 = 0 then
    some { vm with registers := upd vm.registers vx (vm.registers vy) }
  -- OR Vx, Vy
  else if p1 = 8 ∧ p4 = 1 then
    some { vm with registers := upd vm.registers vx (vm.registers vx ||| vm.registers vy) }
  -- XOR Vx, Vy
  else if p1 = 8 ∧ p4 = 3 then
    some { vm with registers := upd vm.registers vx (vm.registers vx ^^^ vm.registers vy) }
  -- ADD Vx, Vy: sum computed as u16, VF written, then `sum as u8 & 0xFF`
  else if p1 = 8 ∧ p4 = 4 then
    let sum := vm.registers vx + vm.registers vy
    let r1 := upd vm.registers 0xF (if 255 < sum then 1 else 0)
    some { vm with registers := upd r1 vx ((sum % 256) &&& 0xFF) }
  -- SUB Vx, Vy: VF written first, then `registers[vx] -= registers[vy]`
  else if p1 = 8 ∧ p4 = 5 then
    let r1 := upd vm.registers 0xF (if vm.registers vy < vm.registers vx then 1 else 0)
    if r1 vy ≤ r1 vx then
      some { vm with registers := upd r1 vx (r1 vx - r1 vy) }
    else none
  -- SHR Vx: VF = old bit 0, then `registers[vx] >>= 1`
  else if p1 = 8 ∧ p4 = 6 then
    let r1 := upd vm.registers 0xF (vm.registers vx &&& 0x1)
    some { vm with registers := upd r1 vx (r1 vx >>> 1) }
  -- SUBN Vx, Vy: VF written first, then `registers[vx] = registers[vy] - registers[vx]`
  else if p1 = 8 ∧ p4 = 7 then
    let r1 := upd vm.registers 0xF (if vm.registers vx < vm.registers vy then 1 else 0)
    if r1 vx ≤ r1 vy then
      some { vm with registers := upd r1 vx (r1 vy - r1 vx) }
    else none
  -- SHL Vx, Vy: VF = old bit 7, then `registers[vx] <<= 1` (u8, truncates)
  else if p1 = 8 ∧ p4 = 8 then
    let r1 := upd vm.registers 0xF ((vm.registers vx &&& 0x80) >>> 7)
    some { vm with registers := upd r1 vx ((r1 vx <<< 1) % 256) }
  -- SNE Vx, Vy
  else if p1 = 9 ∧ p4 = 0 then
    if vm.registers vx ≠ vm.registers vy then
      if vm.program_counter + 2 < 65536 then
        some { vm with program_counter := vm.program_counter + 2 }
      else none
    else some vm
  -- LD I, addr
  else if p1 = 0xA then some { vm with index_register := nnn }
  -- JP V0, addr (u16 sum ≤ 255 + 4095, never overflows)
  else if p1 = 0xB then some { vm with program_counter := vm.registers 0 + nnn }
  -- RND Vx, byte: `rng.gen_range(0, 255)` draws from [0, 255); the draw is
  -- modelled by the oracle field `rng` reduced into that range
  else if p1 = 0xC then
    some { vm with registers := upd vm.registers vx ((vm.rng % 255) &&& byte) }
  -- DRW Vx, Vy, nibble: `x_start = vx as u8 % 64` (the NIBBLE, not the
  -- register value), `y_start = vy as u8 % 32`; sprite bit picked by
  -- `0x80 >> x` — a u8 shifted by the absolute column x, which is a debug
  -- shift-overflow panic for x ≥ 8; pixels pushed through
  -- `framebuffer.set`; VF = collision at the end
  else if p1 = 0xD then
    let height := opcode &&& 0x000F
    let x_start := vx % 64
    let y_start := vy % 32
    match (List.range 8).foldlM (fun (acc : Bool × Framebuffer) dx =>
        (List.range height).foldlM (fun (acc2 : Bool × Framebuffer) dy =>
          let x := x_start + dx
          let y := y_start + dy
          if vm.index_register + y < 4096 ∧ x < 8 then
            let pixel := (vm.memory (vm.index_register + y) &&& (0x80 >>> x)) != 0
            match acc2.2.set x y pixel with
            | none => none
            | some (c, fb) => some (acc2.1 || c, fb)
          else none) acc) (false, vm.framebuffer) with
    | none => none
    | some res =>
        some { vm with framebuffer := res.2,
                       registers := upd vm.registers 0xF (if res.1 then 1 else 0) }
  -- SKP Vx: `keyboard[registers[vx]]` (bounds-checked)
  else if p1 = 0xE ∧ p3 = 9 ∧ p4 = 0xE then
    if vm.registers vx < 16 then
      if vm.keyboard (vm.registers vx) then
        if vm.program_counter + 2 < 65536 then
          some { vm with program_counter := vm.program_counter + 2 }
        else none
      else some vm
    else none
  -- SKNP Vx
  else if p1 = 0xE ∧ p3 = 0xA ∧ p4 = 1 then
    if vm.registers vx < 16 then
      if vm.keyboard (vm.registers vx) then some vm
      else
        if vm.program_counter + 2 < 65536 then
          some { vm with program_counter := vm.program_counter + 2 }
        else none
    else none
  -- LD Vx, DT
  else if p1 = 0xF ∧ p3 = 0 ∧ p4 = 7 then
    some { vm with registers := upd vm.registers vx vm.delay_timer }
  -- LD Vx, K: scan keyboard[0..16] in order; on the first pressed key store
  -- its index and return; if none, `program_counter -= 2` (u16 underflow check)
  else if p1 = 0xF ∧ p3 = 0 ∧ p4 = 0xA then
    match (List.range 16).find? vm.keyboard with
    | some i => some { vm with registers := upd vm.registers vx i }
    | none =>
        if 2 ≤ vm.program_counter then
          some { vm with program_counter := vm.program_counter - 2 }
        else none
  -- LD DT, Vx
  else if p1 = 0xF ∧ p3 = 1 ∧ p4 = 5 then
    some { vm with delay_timer := vm.registers vx }
  -- LD ST, Vx
  else if p1 = 0xF ∧ p3 = 1 ∧ p4 = 8 then
    some { vm with sound_timer := vm.registers vx }
  -- ADD I, Vx (u16, debug overflow check)
  else if p1 = 0xF ∧ p3 = 1 ∧ p4 = 0xE then
    if vm.index_register + vm.registers vx < 65536 then
      some { vm with index_register := vm.index_register + vm.registers vx }
    else none
  -- LD F, Vx: `(0x50 + (5 * digit)) as u16`, both u8 steps overflow-checked
  else if p1 = 0xF ∧ p3 = 2 ∧ p4 = 9 then
    let digit := vm.registers vx
    if 5 * digit < 256 ∧ 0x50 + 5 * digit < 256 then
      some { vm with index_register := 0x50 + 5 * digit }
    else none
  -- LD B, Vx: ones at index+2, tens at index+1, hundreds at index
  else if p1 = 0xF ∧ p3 = 3 ∧ p4 = 3 then
    let val := vm.registers vx
    let index := vm.index_register
    if index + 2 < 4096 then
      let m1 := upd vm.memory (index + 2) (val % 10)
      let m2 := upd m1 (index + 1) ((val / 10) % 10)
      some { vm with memory := upd m2 index ((val / 10 / 10) % 10) }
    else none
  -- LD [I], Vx: `for i in 0..vx` (EXCLUSIVE upper bound in the source)
  else if p1 = 0xF ∧ p3 = 5 ∧ p4 = 5 then
    match (List.range vx).foldlM (fun m i =>
        if vm.index_register + i < 4096 then
          some (upd m (vm.index_register + i) (vm.registers i))
        else none) vm.memory with
    | none => none
    | some m => some { vm with memory := m }
  -- LD Vx, [I]: `for i in 0..vx` (EXCLUSIVE upper bound in the source)
  else if p1 = 0xF ∧ p3 = 6 ∧ p4 = 5 then
    match (List.range vx).foldlM (fun r i =>
        if vm.index_register + i < 4096 then
          some (upd r i (vm.memory (vm.index_register + i)))
        else none) vm.registers with
    | none => none
    | some r => some { vm with registers := r }
  -- Unknown opcode: diagnostic println only, state untouched
  else some vm

/-- `VM::cycle`: fetch the big-endian 16-bit instruction at the program
counter (two bounds-checked byte reads), advance the program counter by 2,
then dispatch.  With `pc + 1 < 4096` the u16 increment cannot overflow. -/
def cycle (vm : VM) : Option VM :=
  if vm.program_counter + 1 < 4096 then
    let opcode := (vm.memory vm.program_counter <<< 8) ||| vm.memory (vm.program_counter + 1)
    op { vm with program_counter := vm.program_counter + 2 } opcode
  else none

end VM

/-! Concrete states used to evaluate the machine at specific inputs. -/

/-- A machine whose ROM area holds `CALL 0x300` at 0x200 and `RET` at 0x300. -/
def callretVM : VM :=
  { VM.new with memory := fun a => if a = 0x200 then 0x23 else if a = 0x301 then 0xEE else 0 }

/-- A machine set up for `DRW`: `V1 = 60`, `V2 = 0`, `I = 0x300`, and three
solid sprite rows `0xFF` at `0x300`–`0x302`. -/
def drwVM : VM :=
  { VM.new with
      registers := fun i => if i = 1 then 60 else 0,
      index_register := 0x300,
      memory := fun a => if a = 0x300 ∨ a = 0x301 ∨ a = 0x302 then 0xFF else 0 }

/-- A machine set up for a `DRW` with x-nibble 0 (the only x-nibble whose
column loop stays below the u8 shift bound): `V0 = 60`, `V1 = 5`,
`I = 0x300`, and three solid sprite rows `0xFF` at `0x300`–`0x302`. -/
def drw0VM : VM :=
  { VM.new with
      registers := fun i => if i = 0 then 60 else if i = 1 then 5 else 0,
      index_register := 0x300,
      memory := fun a => if a = 0x300 ∨ a = 0x301 ∨ a = 0x302 then 0xFF else 0 }

/-- A machine set up for `Fx65`: `I = 0x300`, `memory[0x300] = 7`,
`memory[0x301] = 9`, all registers zero. -/
def regload65VM : VM :=
  { VM.new with
      index_register := 0x300,
      memory := fun a => if a = 0x300 then 7 else if a = 0x301 then 9 else 0 }

/-- A machine set up for `Fx55`: `V0 = 4`, `V1 = 5`, `I = 0x300`, memory zero. -/
def regstore55VM : VM :=
  { VM.new with
      index_register := 0x300,
      registers := fun i => if i = 0 then 4 else if i = 1 then 5 else 0 }

/-- A machine set up for the `(0,_,_,2)` vs `8xy2` dispatch: `V1 = 12`, `V2 = 10`. -/
def andVM : VM :=
  { VM.new with registers := fun i => if i = 1 then 12 else if i = 2 then 10 else 0 }

/-- A machine whose next instruction (at 0x200) is `F10A` (`LD V1, K`),
with no key pressed. -/
def keywaitVM : VM :=
  { VM.new with memory := fun a => if a = 0x200 then 0xF1 else if a = 0x201 then 0x0A else 0 }

/-- A framebuffer whose pixel (0, 0) is on in every row. -/
def litFB : Framebuffer := ⟨fun _ => 1⟩

/-! ## Helper lemmas -/

theorem upd_same (f : Nat → Nat) (i v : Nat) : upd f i v i = v := by
  simp [upd]

theorem upd_ne (f : Nat → Nat) (i v j : Nat) (h : j ≠ i) : upd f i v j = f j := by
  simp [upd, h]

/-- Pointwise description of the `load` copy loop: address `a` receives
`rom (a - 512)` exactly when `512 ≤ a < 512 + n`. -/
theorem load_memory_eq (rom mem : Nat → Nat) (n : Nat) (a : Nat) :
    (List.range n).foldl (fun m i => upd m (512 + i) (rom i)) mem a
      = if 512 ≤ a ∧ a < 512 + n then rom (a - 512) else mem a := by
  induction n generalizing a with
  | zero =>
      rw [if_neg (by omega)]
      simp
  | succ n ih =>
      rw [List.range_succ, List.foldl_append]
      simp only [List.foldl_cons, List.foldl_nil]
      by_cases h : a = 512 + n
      · subst h
        simp [upd]
      · rw [upd_ne _ _ _ _ h, ih]
        by_cases h2 : 512 ≤ a ∧ a < 512 + n
        · rw [if_pos h2, if_pos ⟨h2.1, by omega⟩]
        · rw [if_neg h2, if_neg (by omega)]

/-- `List.find?` over `List.range n` returns the least index satisfying `p`. -/
theorem find?_range_least (p : Nat → Bool) (n k : Nat) (hk : k < n) (hp : p k = true)
    (hmin : ∀ j, j < k → p j = false) : (List.range n).find? p = some k := by
  induction n with
  | zero => omega
  | succ n ih =>
      rw [List.range_succ, List.find?_append]
      rcases Nat.lt_or_ge k n with h | h
      · rw [ih h]
        rfl
      · have hkn : k = n := by omega
        subst hkn
        have hnone : (List.range k).find? p = none := by
          rw [List.find?_eq_none]
          intro x hx
          simp [hmin x (List.mem_range.mp hx)]
        rw [hnone]
        simp [List.find?, hp]

/-- The pixel-test expression of `Framebuffer::get` is `Nat.testBit`. -/
theorem and_one_ne_zero_eq_testBit (m x : Nat) :
    ((m >>> x) &&& 1 != 0) = m.testBit x := by
  simp [Nat.testBit, Nat.and_comm]

/-! ## Claim theorems -/

/-- Claim C1, refuted at a concrete input: `Framebuffer::set` ORs the
incoming state into the pixel and reports collision from the pre-existing
pixel state alone.  Two consecutive `set(0,0,true)` calls on an off cell
return collision `false` then `true` but leave the cell ON — the claimed
XOR semantics would leave it off — and `set(0,0,false)` on an on cell
reports collision `true`, while the claimed formula
`(pre-existing state) AND (incoming state)` gives `false`. -/
theorem framebuffer_set_is_or_not_xor :
    (Framebuffer.set Framebuffer.new 0 0 true).map Prod.fst = some false ∧
    ((Framebuffer.set Framebuffer.new 0 0 true).bind fun p =>
      Framebuffer.set p.2 0 0 true).map Prod.fst = some true ∧
    (((Framebuffer.set Framebuffer.new 0 0 true).bind fun p =>
      Framebuffer.set p.2 0 0 true).bind fun p => Framebuffer.get p.2 0 0) = some true ∧
    ((Framebuffer.set Framebuffer.new 0 0 true).bind fun p =>
      Framebuffer.set p.2 0 0 false).map Prod.fst = some true := by
  decide

/-- Claim C2, refuted at concrete inputs.  First, `DRW` with any nonzero
x-nibble panics instead of drawing: with `V1 = 60`, `V2 = 0`, `I = 0x300`
and solid `0xFF` sprite rows, opcode `0xD121` starts its column loop at
`x_start = 1` (the nibble) and reaches column 8, where the u8 shift
`0x80 >> 8` is a debug shift-overflow panic — the claim requires a
successful wrapped draw with no error.  Second, on the panic-free opcode
`0xD011` with `V0 = 60`, `V1 = 5`, the sprite lands at the operand nibbles
`(0, 1)`, not at the register values `(V0 mod 64, V1 mod 32) = (60, 5)`:
pixel (60, 5) stays off and pixel (0, 1) turns on. -/
theorem drw_wrong_coords_and_shift_overflow :
    (VM.op drwVM 0xD121).isNone = true ∧
    ((VM.op drw0VM 0xD011).bind fun v => v.framebuffer.get 60 5) = some false ∧
    ((VM.op drw0VM 0xD011).bind fun v => v.framebuffer.get 0 1) = some true := by
  decide

/-- Claim C3, refuted at a concrete input: CALL pushes the return address
into stack slot `sp + 1` after incrementing, but RET pops from slot
`sp - 1` after decrementing, so the two address different slots.  From a
fresh machine, `CALL 0x300` at 0x200 stores 0x202 in slot 1, but the `RET`
at 0x300 reloads slot 0 (still 0): the program counter ends at 0, not at
0x202, though the stack pointer does return to 0. -/
theorem call_ret_does_not_restore_pc :
    (VM.cycle callretVM).map
        (fun v => (v.program_counter, v.stack_pointer, v.stack 1, v.stack 0))
      = some (0x300, 1, 0x202, 0) ∧
    ((VM.cycle callretVM).bind VM.cycle).map
        (fun v => (v.program_counter, v.stack_pointer)) = some (0, 0) ∧
    ((VM.cycle callretVM).bind VM.cycle).map (fun v => v.program_counter)
      ≠ some 0x202 := by
  decide

/-- Claim C4, refuted at a concrete input: the copy loop iterates over the
slice `512..4095`, which has 3583 cells, so ROM byte 3583 is never written:
after loading the constant-`0xAB` ROM, address 0xFFE holds 0xAB but address
0xFFF still holds 0, not the claimed ROM byte 0xAB. -/
theorem load_skips_last_rom_byte :
    (VM.new.load (fun _ => 0xAB)).memory 0xFFE = 0xAB ∧
    (VM.new.load (fun _ => 0xAB)).memory 0xFFF = 0 ∧
    (0 : Nat) ≠ 0xAB := by
  refine ⟨?_, ?_, by decide⟩
  · simp only [VM.load]
    rw [load_memory_eq, if_pos (by omega)]
  · simp only [VM.load]
    rw [load_memory_eq, if_neg (by omega)]
    rfl

/-- Claim C5, refuted at a concrete input: the `Fx55`/`Fx65` loops run
`for i in 0..vx`, an exclusive range of `x` registers, not the claimed
inclusive `x + 1`.  `0xF165` with `memory[I] = 7`, `memory[I+1] = 9` loads
`V0 = 7` but leaves `V1 = 0` (claim: `V1 = 9`); `0xF155` with `V0 = 4`,
`V1 = 5` stores `memory[I] = 4` but leaves `memory[I+1] = 0` (claim: 5). -/
theorem fx55_fx65_exclude_vx :
    (VM.op regload65VM 0xF165).map (fun v => (v.registers 0, v.registers 1))
      = some (7, 0) ∧
    (VM.op regload65VM 0xF165).map (fun v => v.registers 1) ≠ some 9 ∧
    (VM.op regstore55VM 0xF155).map (fun v => (v.memory 0x300, v.memory 0x301))
      = some (4, 0) ∧
    (VM.op regstore55VM 0xF155).map (fun v => v.memory 0x301) ≠ some 5 := by
  decide

/-- Claim C6, refuted at a concrete input: the AND arm's pattern is
`(0, _, _, 2)`, and no `(8, _, _, 2)` arm exists, so opcode `0x8122` falls
through to the unknown-opcode arm and leaves `V1 = 12` unchanged instead of
storing `12 AND 10 = 8`; the AND is instead performed by opcode `0x0122`. -/
theorem and_opcode_matches_zero_not_eight :
    (VM.op andVM 0x8122).map (fun v => v.registers 1) = some 12 ∧
    (VM.op andVM 0x8122).map (fun v => v.registers 1) ≠ some 8 ∧
    (VM.op andVM 0x0122).map (fun v => v.registers 1) = some 8 := by
  decide

/-- Claim C7, refuted at a concrete input: the guard is `key >= 0xF`, so the
valid key index 15 is rejected (panic) even though the keyboard array has 16
slots; index 14 is accepted and index 16 rejected as the claim states. -/
theorem key_fifteen_rejected :
    (VM.key VM.new 15 true).isNone = true ∧
    (VM.key VM.new 16 true).isNone = true ∧
    (VM.key VM.new 14 true).map (fun v => v.keyboard 14) = some true := by
  decide

/-- Claim C8: a whole `cycle` whose fetched instruction is `Fx0A` leaves the
program counter unchanged when no key is pressed (the +2 fetch advance is
undone by the −2 rewind), and when keys are pressed it stores the lowest
pressed key index into `Vx` and ends with the program counter at the next
instruction. -/
theorem keywait_cycle_spec (vm : VM) (x : Nat) (hx : x < 16)
    (hpc : vm.program_counter + 1 < 4096)
    (hhi : vm.memory vm.program_counter = 0xF0 + x)
    (hlo : vm.memory (vm.program_counter + 1) = 0x0A) :
    ((∀ i, i < 16 → vm.keyboard i = false) →
      (VM.cycle vm).map VM.program_counter = some vm.program_counter) ∧
    (∀ k, k < 16 → vm.keyboard k = true → (∀ j, j < k → vm.keyboard j = false) →
      (VM.cycle vm).map (fun v => (v.registers x, v.program_counter))
        = some (k, vm.program_counter + 2)) := by
  constructor
  · intro hnone
    have hfind : (List.range 16).find? vm.keyboard = none := by
      rw [List.find?_eq_none]
      intro i hi
      simp [hnone i (List.mem_range.mp hi)]
    simp only [VM.cycle, if_pos hpc, hhi, hlo]
    interval_cases x <;> simp +decide [VM.op, hfind]
  · intro k hk hkp hleast
    have hfind : (List.range 16).find? vm.keyboard = some k :=
      find?_range_least vm.keyboard 16 k hk hkp hleast
    simp only [VM.cycle, if_pos hpc, hhi, hlo]
    interval_cases x <;> simp +decide [VM.op, hfind, upd]

/-- Witness for C8: on a fresh machine whose instruction at 0x200 is `F10A`
and with no key pressed, the cycle leaves the program counter at 0x200. -/
theorem keywait_cycle_spec_witness :
    (VM.cycle keywaitVM).map VM.program_counter = some keywaitVM.program_counter :=
  (keywait_cycle_spec keywaitVM 1 (by decide) (by decide) (by decide) (by decide)).1
    (fun _ _ => rfl)

/-- Claim C9: `load` writes only addresses `512..4094`, so the reserved
interpreter/font region `0x000`–`0x1FF` is unchanged for every ROM and every
prior memory contents. -/
theorem load_preserves_reserved_region (vm : VM) (rom : Nat → Nat) (a : Nat)
    (ha : a < 512) : (vm.load rom).memory a = vm.memory a := by
  simp only [VM.load]
  rw [load_memory_eq, if_neg (by omega)]

/-- Witness for C9 at a concrete input. -/
theorem load_preserves_reserved_region_witness :
    (VM.new.load (fun _ => 0xAB)).memory 0x1FF = VM.new.memory 0x1FF :=
  load_preserves_reserved_region VM.new (fun _ => 0xAB) 0x1FF (by decide)

/-- Claim C10: for in-range coordinates, `Framebuffer::set` never turns a
pixel off — an on pixel stays on after any `set`, `set(x,y,true)` always
leaves the pixel on — and `clear` turns every pixel off. -/
theorem set_never_clears_pixel (fb : Framebuffer) (x y : Nat) (s : Bool)
    (hx : x < 64) (hy : y < 32) :
    (fb.get x y = some true →
      ((fb.set x y s).bind fun p => p.2.get x y) = some true) ∧
    (s = true → ((fb.set x y s).bind fun p => p.2.get x y) = some true) ∧
    (fb.clear.get x y = some false) := by
  have hin : y < 32 ∧ x < 64 := ⟨hy, hx⟩
  refine ⟨?_, ?_, ?_⟩
  · intro hpre
    rw [Framebuffer.get, if_pos hin] at hpre
    have hbit : (fb.buffer y).testBit x = true := by
      have h := Option.some.inj hpre
      rwa [and_one_ne_zero_eq_testBit] at h
    simp only [Framebuffer.set, Framebuffer.get, if_pos hin, Option.some_bind,
      upd_same]
    rw [and_one_ne_zero_eq_testBit, Nat.testBit_lor, hbit]
    simp
  · intro hs
    subst hs
    simp only [Framebuffer.set, Framebuffer.get, if_pos hin, Option.some_bind,
      upd_same, if_true]
    rw [and_one_ne_zero_eq_testBit, Nat.testBit_lor]
    simp [Nat.testBit_shiftLeft, Nat.sub_self]
  · simp only [Framebuffer.clear, Framebuffer.get, if_pos hin]
    simp [Nat.zero_shiftRight]

/-- Witness for C10 at a concrete input: pixel (0, 0) is on in `litFB`, and
`set(0, 0, false)` leaves it on. -/
theorem set_never_clears_pixel_witness :
    ((litFB.set 0 0 false).bind fun p => p.2.get 0 0) = some true :=
  (set_never_clears_pixel litFB 0 0 false (by decide) (by decide)).1 (by decide)

end Chip8
